import Mathlib

/-!
# The session-tracked authorization handshake of `v-server`

A shallow embedding of `handlers/handlers.go` (the three HTTP handlers and the
functions `getAuthVerificationRequest`, `callback`, `getRequestStatus` behind
them) and of the genesis computation of `config/config.go`
(`GetIssuerIdentityDIDFromAddress`, `genFromHex`).

The process-wide session tracker is threaded through every function as an
explicit `Cache` value.  Everything the handlers obtain from other packages
(the verifier, the JSON encoder, the random source, the UUID generator) is an
explicit argument: the functions here are the functions of the source with
those collaborators made visible.
-/

namespace VServer

/-! ## Results of running a function body -/

/-- How the body of a Go function ends: it returns a value, or it panics. -/
inductive Outcome (α : Type) where
  | returned (a : α)
  | panicked (cause : String)

/-- True when the body ended in a panic. -/
def Outcome.isPanic {α : Type} : Outcome α → Bool
  | .returned _ => false
  | .panicked _ => true

/-! ## Protocol messages (package `protocol` of iden3comm) -/

/-- Values of type `interface{}` that occur inside a proof query: strings,
string slices and nested `map[string]interface{}` values. -/
inductive Value where
  | str (s : String)
  | strs (l : List String)
  | obj (fields : List (String × Value))

/-- Go type `protocol.ZeroKnowledgeProofRequest`, with the fields the handlers set. -/
structure ZeroKnowledgeProofRequest where
  ID : Nat
  CircuitID : String
  Query : List (String × Value)

/-- Go type `protocol.AuthorizationRequestMessageBody`. -/
structure AuthorizationRequestMessageBody where
  CallbackURL : String
  Reason : String
  Message : String
  Scope : List ZeroKnowledgeProofRequest

/-- Go type `protocol.AuthorizationRequestMessage`.  The field `Type` of the
source is `Type_` here. -/
structure AuthorizationRequestMessage where
  ID : String
  Typ : String
  Type_ : String
  ThreadID : String
  Body : AuthorizationRequestMessageBody
  From : String

/-- Go type `protocol.AuthorizationResponseMessage`: what `FullVerify` hands back.
Only `From` is read by the handlers. -/
structure AuthorizationResponseMessage where
  ID : String
  ThreadID : String
  From : String
  To : String

/-! ## Collaborators from other packages -/

/-- A verifier as returned by `auth.NewVerifier`: its method `FullVerify` takes
the proof token and the authorization request and returns the authorization
response, or an error when the token is rejected. -/
structure Verifier where
  FullVerify : String → AuthorizationRequestMessage → Except String AuthorizationResponseMessage

/-- The packages the handlers call into: the library constants, the verifier
constructor, and the JSON text `encoding/json` writes for the values the
handlers marshal. -/
structure Env where
  /-- Constant `packers.MediaTypePlainMessage`. -/
  MediaTypePlainMessage : String
  /-- Constant `protocol.AuthorizationRequestMessageType`. -/
  AuthorizationRequestMessageType : String
  /-- Constant `circuits.AtomicQuerySigV2CircuitID`. -/
  AtomicQuerySigV2CircuitID : String
  /-- Result of `auth.NewVerifier(...)` on the fixed arguments of `callback`:
  an error, a nil pointer (`none`) or a verifier. -/
  NewVerifier : Except String (Option Verifier)
  /-- The JSON text `encoding/json` writes for a request message. -/
  jsonRequest : AuthorizationRequestMessage → String
  /-- The JSON string literal `encoding/json` writes for a Go string
  (quotes and escapes included). -/
  jsonQuote : String → String

/-- Function `rand.Intn(n)` for `n > 0`: a value in `[0, n)`, computed here from
the raw value `rnd` drawn from the random source. -/
def Intn (rnd : Nat) (n : Nat) : Nat := rnd % n

/-- Function `strconv.Itoa` on a non-negative `int`: its decimal rendering. -/
def Itoa (i : Nat) : String := Nat.repr i

/-- Modelled from the spec: `auth.CreateAuthorizationRequest(reason, sender, callbackURL)`
of go-iden3-auth, which is not under src/.  It builds the authorization-request
payload carrying the audience identity (`From`), the callback URI and the
reason, with an empty scope; the request and thread identifiers it generates
are overwritten by `getAuthVerificationRequest` right after the call. -/
def CreateAuthorizationRequest (env : Env) (reason sender callbackURL : String) :
    AuthorizationRequestMessage :=
  { ID := ""
    Typ := env.MediaTypePlainMessage
    Type_ := env.AuthorizationRequestMessageType
    ThreadID := ""
    Body := { CallbackURL := callbackURL, Reason := reason, Message := "", Scope := [] }
    From := sender }

/-- A Go `map[string]interface{}` whose values are strings, as a key-value list. -/
abbrev StringMap := List (String × String)

/-- One `"key":"value"` member of a JSON object. -/
def jsonMember (env : Env) (kv : String × String) : String :=
  env.jsonQuote kv.1 ++ ":" ++ env.jsonQuote kv.2

/-- What `json.Marshal` does with a `map[string]interface{}` holding strings: the
JSON object of its members between braces.  `encoding/json` has no error case for such a map,
so the result is always bytes; the `Except` keeps the Go signature. -/
def jsonMarshalMap (env : Env) (m : StringMap) : Except String String :=
  .ok ("\x7b" ++ ",".intercalate (m.map (jsonMember env)) ++ "\x7d")

/-- What `json.Marshal` does with the request message: its JSON text.  The message
holds strings, an unsigned integer, a string slice and maps with string
leaves only, for which `encoding/json` has no error case, so the result is
always bytes; the `Except` keeps the Go signature. -/
def jsonMarshalRequest (env : Env) (request : AuthorizationRequestMessage) :
    Except String String :=
  .ok (env.jsonRequest request)

/-! ## The session tracker (`userSessionTracker`) -/

/-- The dynamic type of an `interface{}` held by the session tracker: a
`protocol.AuthorizationRequestMessage` (pending session), a
`map[string]interface{}` (resolved session), or a value of any other type. -/
inductive Entry where
  | request (r : AuthorizationRequestMessage)
  | object (m : StringMap)
  | other (typeName : String)

/-- Modelled from the spec: the Session Store, a mapping from session id to
session state (`cache.Cache` of go-cache, which is not under src/).  Expiry is
not modelled: a `Cache` value is the set of live entries, and every statement
about it speaks of operations inside the expiry window. -/
structure Cache where
  items : List (String × Entry)

/-- The tracker of a freshly started process. -/
def Cache.empty : Cache := ⟨[]⟩

/-- Method `Get(k)`: the live entry stored under `k`, if any. -/
def Cache.Get (c : Cache) (k : String) : Option Entry :=
  c.items.lookup k

/-- Method `Set(k, x, cache.DefaultExpiration)`: stores `x` under `k`, replacing
what was there. -/
def Cache.Set (c : Cache) (k : String) (x : Entry) : Cache :=
  ⟨(k, x) :: c.items.filter (fun p => p.1 != k)⟩

/-! ## HTTP responses -/

/-- A value handed to `EncodeResponse`: an `error` or a string. -/
inductive Encodable where
  | err (msg : String)
  | str (msg : String)
  deriving DecidableEq

/-- What a handler writes as the response body: raw bytes through
`EncodeByteResponse` (`none` is the nil slice, which writes nothing), or a
value encoded by `EncodeResponse`. -/
inductive Payload where
  | bytes (res : Option String)
  | encoded (res : Encodable)
  deriving DecidableEq

/-- The response a handler produces: status code, the headers it set (in the
order they were set, names as written in the source) and the body. -/
structure Response where
  statusCode : Nat
  header : List (String × String)
  body : Payload
  deriving DecidableEq

def StatusOK : Nat := 200
def StatusBadRequest : Nat := 400
def StatusNotFound : Nat := 404
def StatusInternalServerError : Nat := 500

/-- Function `EncodeByteResponse(w, statusCode, res)` on a writer whose headers so
far are `header`.  Failure of the write itself is not modelled. -/
def EncodeByteResponse (header : List (String × String)) (statusCode : Nat)
    (res : Option String) : Response :=
  { statusCode := statusCode
    header := header ++ [("Content-Type", "application/json")]
    body := .bytes res }

/-- Function `EncodeResponse(w, statusCode, res)`.  The body records the value handed
to the encoder, not the bytes the encoder writes for it. -/
def EncodeResponse (header : List (String × String)) (statusCode : Nat)
    (res : Encodable) : Response :=
  { statusCode := statusCode
    header := header ++ [("Content-Type", "application/json")]
    body := .encoded res }

/-! ## `handlers.go` -/

/-- Constant `URL`. -/
def URL : String := "https://1b05-112-134-208-202.ngrok-free.app"

/-- Method `Handler.getAuthVerificationRequest`.  `rnd` is the value drawn from the
random source, `id` and `threadId` the two strings from `uuid.New().String()`.
Returns the Go result `(msgBytes, sId, err)` and the session tracker after the
call. -/
def getAuthVerificationRequest (env : Env) (c : Cache) (rnd : Nat) (id threadId : String) :
    Except String (String × String) × Cache :=
  let sId := Itoa (Intn rnd 1000000)
  let uri := URL ++ "/api/v1/callback?sessionId=" ++ sId
  let Audience := "did:polygonid:polygon:mumbai:2qG7bhdJKsk4tSbShiXiF2Eti2cVjUH3iTDXyyn6i7"
  let request := CreateAuthorizationRequest env "test flow" Audience uri
  let request := { request with ID := id }
  let request := { request with ThreadID := threadId }
  let mtpProofRequest : ZeroKnowledgeProofRequest :=
    { ID := 1
      CircuitID := env.AtomicQuerySigV2CircuitID
      Query :=
        [ ("allowedIssuers", .strs ["*"]),
          ("credentialSubject", .obj [("filehash", .obj [("$eq", .str "12345678")])]),
          ("context", .str "ipfs://QmfN3SaKgvTFGVN4cXFH8oWtvvwEdVQ9aeBQcS4ACPW6Z5"),
          ("type", .str "Identification") ] }
  let request :=
    { request with Body := { request.Body with Scope := request.Body.Scope ++ [mtpProofRequest] } }
  let c := c.Set sId (.request request)
  match jsonMarshalRequest env request with
  | .error err => (.error ("error marshalizing response: " ++ err), c)
  | .ok msgBytes => (.ok (msgBytes, sId), c)

/-- Method `Handler.callback`.  Returns how the body ends (the Go result
`(mBytes, err)`, or a panic) and the session tracker after the call. -/
def callback (env : Env) (c : Cache) (sId : String) (tokenBytes : String) :
    Outcome (Except String String) × Cache :=
  match c.Get sId with
  | none => (.returned (.error ("auth request was not found for session ID: " ++ sId)), c)
  | some authRequest =>
    match env.NewVerifier with
    | .error err => (.returned (.error ("error creating verifier 1 " ++ err)), c)
    | .ok none => (.returned (.error "error creating verifier 2"), c)
    | .ok (some verifier) =>
      -- the type assertion `authRequest.(protocol.AuthorizationRequestMessage)`
      match authRequest with
      | .request req =>
        match verifier.FullVerify tokenBytes req with
        | .error err => (.returned (.error ("error Full Verify: " ++ err)), c)
        | .ok arm =>
          let m : StringMap := [("id", arm.From)]
          match jsonMarshalMap env m with
          | .error err => (.returned (.error ("error marshalizing response: " ++ err)), c)
          | .ok mBytes => (.returned (.ok mBytes), c.Set sId (.object m))
      | .object _ =>
        (.panicked ("interface conversion: interface \x7b\x7d is map[string]interface \x7b\x7d, "
          ++ "not protocol.AuthorizationRequestMessage"), c)
      | .other typeName =>
        (.panicked ("interface conversion: interface \x7b\x7d is " ++ typeName
          ++ ", not protocol.AuthorizationRequestMessage"), c)

/-- Method `Handler.getRequestStatus`.  The Go result `(b, err)`: `.ok none` is
`(nil, nil)`, `.ok (some b)` is `(b, nil)`.  It never writes to the tracker. -/
def getRequestStatus (env : Env) (c : Cache) (id : String) : Except String (Option String) :=
  match c.Get id with
  | none => .ok none
  | some item =>
    match item with
    | .request _ => .ok none
    | .object m =>
      match jsonMarshalMap env m with
      | .error err => .error ("error marshalizing response: " ++ err)
      | .ok b => .ok (some b)
    | .other typeName => .error ("unknown item return from tracker (type " ++ typeName ++ ")")

/-- Method `Handler.GetAuthVerificationRequest` (GET `/api/v1/requests/auth`). -/
def GetAuthVerificationRequest (env : Env) (c : Cache) (rnd : Nat) (id threadId : String) :
    Response × Cache :=
  match getAuthVerificationRequest env c rnd id threadId with
  | (.error err, c) =>
    (EncodeResponse [] StatusInternalServerError
      (.str ("can't get auth verification request. err: " ++ err)), c)
  | (.ok (resB, sessionId), c) =>
    (EncodeByteResponse
      [("Access-Control-Expose-Headers", "x-id"), ("x-id", sessionId),
        ("Access-Control-Allow-Origin", "*")]
      StatusOK (some resB), c)

/-- Method `Handler.Callback` (POST `/api/v1/callback?sessionId=...`).  `sessionID`
is the query parameter, `body` the result of `io.ReadAll(r.Body)`.  A panic of
`callback` is not recovered by the handler, so no response is produced. -/
def Callback (env : Env) (c : Cache) (sessionID : String) (body : Except String String) :
    Outcome Response × Cache :=
  match body with
  | .error _ =>
    (.returned (EncodeResponse [] StatusBadRequest (.err "can't read request body")), c)
  | .ok tokenBytes =>
    match callback env c sessionID tokenBytes with
    | (.panicked cause, c) => (.panicked cause, c)
    | (.returned (.error _), c) =>
      (.returned (EncodeResponse [] StatusInternalServerError
        (.err "can't handle callback request")), c)
    | (.returned (.ok resB), c) => (.returned (EncodeByteResponse [] StatusOK (some resB)), c)

/-- Method `Handler.GetRequestStatus` (GET `/api/v1/status?id=...`).  `id` is the
query parameter, the empty string when the request carries none. -/
def GetRequestStatus (env : Env) (c : Cache) (id : String) : Response :=
  if id = "" then
    EncodeResponse [] StatusBadRequest (.err "url parameter has invalid values")
  else
    match getRequestStatus env c id with
    | .error err =>
      EncodeResponse [] StatusInternalServerError
        (.str ("can't get request status. err: " ++ err))
    | .ok none =>
      EncodeResponse [] StatusNotFound (.err ("can't get request status with id: " ++ id))
    | .ok (some resB) => EncodeByteResponse [] StatusOK (some resB)

/-- One request served by the process, with the values it draws from outside:
an issuance, a callback or a status poll. -/
inductive Op where
  | getAuthVerificationRequest (rnd : Nat) (id threadId : String)
  | callback (sId tokenBytes : String)
  | getRequestStatus (id : String)

/-- The session tracker after serving one request.  A panic of `callback` ends
that request only; the tracker is what it was when the panic was raised. -/
def step (env : Env) (c : Cache) : Op → Cache
  | .getAuthVerificationRequest rnd id threadId =>
    (getAuthVerificationRequest env c rnd id threadId).2
  | .callback sId tokenBytes => (callback env c sId tokenBytes).2
  | .getRequestStatus _ => c

/-- The session tracker after serving a sequence of requests, in order. -/
def run (env : Env) (c : Cache) (ops : List Op) : Cache :=
  ops.foldl (step env) c

/-! ## `config.go` -/

/-- Function `strings.Trim(s, cutset)`: `s` without the leading and trailing
characters that occur in `cutset`. -/
def Trim (s cutset : String) : String :=
  let inCutset : Char → Bool := fun ch => cutset.toList.contains ch
  String.mk ((s.toList.dropWhile inCutset).reverse.dropWhile inCutset).reverse

/-- Value of one hexadecimal digit (table `reverseHexTable` of `encoding/hex`). -/
def fromHexChar (ch : Char) : Option Nat :=
  if 48 ≤ ch.toNat ∧ ch.toNat ≤ 57 then some (ch.toNat - 48)
  else if 97 ≤ ch.toNat ∧ ch.toNat ≤ 102 then some (ch.toNat - 87)
  else if 65 ≤ ch.toNat ∧ ch.toNat ≤ 70 then some (ch.toNat - 55)
  else none

/-- Function `hex.Decode` on the characters of the source: two digits per byte; an
invalid character or an odd length is an error (the error texts are shortened). -/
def hexDecode : List Char → Except String (List Nat)
  | [] => .ok []
  | [p] =>
    match fromHexChar p with
    | none => .error "encoding/hex: invalid byte"
    | some _ => .error "encoding/hex: odd length hex string"
  | p :: q :: rest =>
    match fromHexChar p, fromHexChar q with
    | some a, some b =>
      match hexDecode rest with
      | .ok bs => .ok ((a * 16 + b) :: bs)
      | .error err => .error err
    | _, _ => .error "encoding/hex: invalid byte"

/-- Function `hex.DecodeString`. -/
def DecodeString (s : String) : Except String (List Nat) :=
  hexDecode s.toList

/-- Function `genFromHex`: decodes `gh`, panics on a decoding error, and copies the
bytes into a zeroed `[27]byte` (`copy` moves at most 27 bytes). -/
def genFromHex (gh : String) : Outcome (List Nat) :=
  match DecodeString gh with
  | .error err => .panicked err
  | .ok genBytes => .returned (genBytes.take 27 ++ List.replicate (27 - genBytes.length) 0)

/-- Go type `resolverSettings`: per network, the pair `NetworkURL`, `ContractState`. -/
abbrev resolverSettings := List (String × String × String)

/-- Go type `Config`. -/
structure Config where
  OnchainIssuerContractAddress : String
  KeyDir : String
  HostUrl : String
  OnchainIssuerContractBlockchain : String
  OnchainIssuerContractNetwork : String
  OnchainIssuerIdentity : String
  Resolvers : resolverSettings

/-- The functions of go-iden3-core that `GetIssuerIdentityDIDFromAddress` calls. -/
structure Core where
  /-- Constant `core.DIDMethodPolygonID`. -/
  DIDMethodPolygonID : String
  /-- Function `core.BuildDIDType(method, blockchain, network)`. -/
  BuildDIDType : String → String → String → Except String (List Nat)
  /-- Function `core.NewID(tp, genesis)` followed by `id.String()`. -/
  NewIDString : List Nat → List Nat → String

/-- The first statement of `GetIssuerIdentityDIDFromAddress`:
`genFromHex("00000000000000" + strings.Trim(c.OnchainIssuerContractAddress, "0x"))`. -/
def Config.genesis (c : Config) : Outcome (List Nat) :=
  genFromHex ("00000000000000" ++ Trim c.OnchainIssuerContractAddress "0x")

/-- Method `Config.GetIssuerIdentityDIDFromAddress`: the returned error (`none` is
nil) and the configuration after the call, or a panic. -/
def Config.GetIssuerIdentityDIDFromAddress (core : Core) (c : Config) :
    Outcome (Option String × Config) :=
  match c.genesis with
  | .panicked cause => .panicked cause
  | .returned genesis =>
    match core.BuildDIDType core.DIDMethodPolygonID c.OnchainIssuerContractBlockchain
        c.OnchainIssuerContractNetwork with
    | .error err => .returned (some err, c)
    | .ok tp =>
      .returned (none,
        { c with
          OnchainIssuerIdentity :=
            "did:polygonid:" ++ c.OnchainIssuerContractBlockchain ++ ":"
              ++ c.OnchainIssuerContractNetwork ++ ":" ++ core.NewIDString tp genesis })

/-- True when `s` is `0x` followed by exactly 40 hexadecimal digits. -/
def isContractAddress (s : String) : Bool :=
  match s.toList with
  | '0' :: 'x' :: ds => ds.length == 40 && ds.all (fun ch => (fromHexChar ch).isSome)
  | _ => false

/-- The genesis a contract address stands for: 7 zero bytes followed by the 20
bytes its 40 hexadecimal digits denote. -/
def addressGenesis (address : String) : Option (List Nat) :=
  match hexDecode (address.toList.drop 2) with
  | .ok bs => some (List.replicate 7 0 ++ bs)
  | .error _ => none

/-- The value a function body returned, if it returned. -/
def Outcome.value? {α : Type} : Outcome α → Option α
  | .returned a => some a
  | .panicked _ => none

/-! ## A concrete environment -/

/-- A verifier that accepts exactly the token `valid-token`. -/
def sampleVerifier : Verifier where
  FullVerify := fun tokenBytes request =>
    if tokenBytes = "valid-token" then
      .ok { ID := "resp-1", ThreadID := request.ThreadID,
            From := "did:polygonid:polygon:mumbai:2qSubject", To := request.From }
    else .error "token rejected"

/-- An environment with a working verifier and a working encoder. -/
def sampleEnv : Env where
  MediaTypePlainMessage := "application/iden3comm-plain-json"
  AuthorizationRequestMessageType := "https://iden3-communication.io/authorization/1.0/request"
  AtomicQuerySigV2CircuitID := "credentialAtomicQuerySigV2"
  NewVerifier := .ok (some sampleVerifier)
  jsonRequest := fun r => "request " ++ r.ID ++ " " ++ r.Body.CallbackURL
  jsonQuote := fun s => "\"" ++ s ++ "\""

/-- The trackers the process can hold: the empty one at start, and what serving
one more request makes of a tracker it can hold. -/
inductive Reachable (env : Env) : Cache → Prop where
  | start : Reachable env Cache.empty
  | serve (c : Cache) (op : Op) : Reachable env c → Reachable env (step env c op)

/-- The tracker after one issuance that generated the integer 42. -/
def pendingCache : Cache :=
  run sampleEnv Cache.empty [.getAuthVerificationRequest 42 "id-1" "thread-1"]

/-- The tracker after that issuance and a callback with an accepted token. -/
def resolvedCache : Cache :=
  run sampleEnv Cache.empty
    [.getAuthVerificationRequest 42 "id-1" "thread-1", .callback "42" "valid-token"]

/-- True for the entry of a pending session. -/
def Entry.isRequest : Entry → Bool
  | .request _ => true
  | _ => false

/-- True for the entry of a resolved session. -/
def Entry.isObject : Entry → Bool
  | .object _ => true
  | _ => false

/-- The number a list of decimal digit characters denotes. -/
def digitsValue (ds : List Char) : Nat :=
  ds.foldl (fun acc ch => acc * 10 + (ch.toNat - 48)) 0

/-- The configuration `envconfig` builds from the defaults of the struct tags,
with the given contract address. -/
def configWithAddress (address : String) : Config where
  OnchainIssuerContractAddress := address
  KeyDir := "./keys"
  HostUrl := "https://d527-212-104-236-94.ngrok-free.app"
  OnchainIssuerContractBlockchain := "polygon"
  OnchainIssuerContractNetwork := "mumbai"
  OnchainIssuerIdentity := ""
  Resolvers := []

/-! ## The session tracker: reading after writing -/

theorem Cache.get_set_self (c : Cache) (k : String) (x : Entry) :
    (c.Set k x).Get k = some x := by
  simp [Cache.Get, Cache.Set, List.lookup]

theorem lookup_filter_ne (l : List (String × Entry)) (k k' : String) (h : k' ≠ k) :
    (l.filter (fun p => p.1 != k)).lookup k' = l.lookup k' := by
  induction l with
  | nil => rfl
  | cons p l ih =>
    obtain ⟨a, b⟩ := p
    by_cases hak : a = k
    · subst hak
      have hne : (k' == a) = false := by simpa using h
      simp [List.filter, List.lookup, hne, ih]
    · have hne : (a != k) = true := by simpa using hak
      simp only [List.filter, hne, List.lookup]
      rw [ih]

theorem Cache.get_set_of_ne (c : Cache) (k k' : String) (x : Entry) (h : k' ≠ k) :
    (c.Set k x).Get k' = c.Get k' := by
  have hne : (k' == k) = false := by simpa using h
  simp only [Cache.Get, Cache.Set, List.lookup, hne]
  exact lookup_filter_ne c.items k k' h

/-! ## Session ids are decimal renderings -/

theorem toDigitsCore_ne_nil (f n : Nat) (ds : List Char) (h : ds ≠ []) :
    Nat.toDigitsCore 10 f n ds ≠ [] := by
  induction f generalizing n ds with
  | zero => simpa [Nat.toDigitsCore] using h
  | succ f ih =>
    simp only [Nat.toDigitsCore]
    split
    · simp
    · exact ih _ _ (by simp)

theorem Itoa_ne_empty (i : Nat) : Itoa i ≠ "" := by
  intro h
  have hdata : (Itoa i).data = [] := by rw [h]
  simp only [Itoa, Nat.repr, Nat.toDigits, List.asString, Nat.toDigitsCore] at hdata
  split at hdata
  · simp at hdata
  · exact toDigitsCore_ne_nil _ _ _ (by simp) hdata

theorem digitsValue_foldl (ds : List Char) (a : Nat) :
    ds.foldl (fun acc ch => acc * 10 + (ch.toNat - 48)) a = a * 10 ^ ds.length + digitsValue ds := by
  induction ds generalizing a with
  | nil => simp [digitsValue]
  | cons d ds ih =>
    simp only [List.foldl_cons, digitsValue, List.length_cons]
    rw [ih, ih (0 * 10 + (d.toNat - 48))]
    ring

theorem digitsValue_cons (d : Char) (ds : List Char) :
    digitsValue (d :: ds) = (d.toNat - 48) * 10 ^ ds.length + digitsValue ds := by
  have h := digitsValue_foldl ds (0 * 10 + (d.toNat - 48))
  simp only [Nat.zero_mul, Nat.zero_add] at h
  simpa [digitsValue] using h

theorem digitChar_value (k : Nat) (h : k < 10) : (Nat.digitChar k).toNat - 48 = k := by
  interval_cases k <;> rfl

theorem digitsValue_toDigitsCore (f n : Nat) (ds : List Char) (h : n < f) :
    digitsValue (Nat.toDigitsCore 10 f n ds) = n * 10 ^ ds.length + digitsValue ds := by
  induction f generalizing n ds with
  | zero => omega
  | succ f ih =>
    simp only [Nat.toDigitsCore]
    split
    · rename_i h0
      have hn : n % 10 = n := by omega
      rw [digitsValue_cons, digitChar_value _ (Nat.mod_lt _ (by decide)), hn]
    · rename_i h0
      rw [ih (n / 10) _ (by omega), digitsValue_cons,
        digitChar_value _ (Nat.mod_lt _ (by decide)), List.length_cons]
      have hdm := Nat.div_add_mod n 10
      have : n / 10 * 10 ^ (ds.length + 1) + n % 10 * 10 ^ ds.length
          = (10 * (n / 10) + n % 10) * 10 ^ ds.length := by ring
      rw [← Nat.add_assoc, this, hdm]

theorem digitsValue_Itoa (i : Nat) : digitsValue (Itoa i).data = i := by
  have h := digitsValue_toDigitsCore (i + 1) i [] (Nat.lt_succ_self i)
  simpa [Itoa, Nat.repr, Nat.toDigits, List.asString, digitsValue] using h

theorem Itoa_injective (i j : Nat) (h : Itoa i = Itoa j) : i = j := by
  have hi := digitsValue_Itoa i
  rw [h, digitsValue_Itoa j] at hi
  exact hi.symm

/-! ## What each operation does to the session tracker -/

theorem getAuthVerificationRequest_spec (env : Env) (c : Cache) (rnd : Nat)
    (id threadId : String) :
    ∃ request : AuthorizationRequestMessage,
      request.Body.CallbackURL
          = URL ++ "/api/v1/callback?sessionId=" ++ Itoa (Intn rnd 1000000)
        ∧ (getAuthVerificationRequest env c rnd id threadId).2
          = c.Set (Itoa (Intn rnd 1000000)) (.request request)
        ∧ (getAuthVerificationRequest env c rnd id threadId).1
          = (match jsonMarshalRequest env request with
            | .error err => .error ("error marshalizing response: " ++ err)
            | .ok msgBytes => .ok (msgBytes, Itoa (Intn rnd 1000000))) := by
  refine ⟨(({ CreateAuthorizationRequest env "test flow"
      "did:polygonid:polygon:mumbai:2qG7bhdJKsk4tSbShiXiF2Eti2cVjUH3iTDXyyn6i7"
      (URL ++ "/api/v1/callback?sessionId=" ++ Itoa (Intn rnd 1000000)) with
        ID := id, ThreadID := threadId,
        Body := ⟨URL ++ "/api/v1/callback?sessionId=" ++ Itoa (Intn rnd 1000000), "test flow", "",
          [⟨1, env.AtomicQuerySigV2CircuitID,
            [ ("allowedIssuers", .strs ["*"]),
              ("credentialSubject", .obj [("filehash", .obj [("$eq", .str "12345678")])]),
              ("context", .str "ipfs://QmfN3SaKgvTFGVN4cXFH8oWtvvwEdVQ9aeBQcS4ACPW6Z5"),
              ("type", .str "Identification") ]⟩]⟩ } : AuthorizationRequestMessage)), rfl, ?_, ?_⟩
  · unfold getAuthVerificationRequest
    dsimp only
    split <;> rfl
  · unfold getAuthVerificationRequest
    dsimp only
    split <;> simp_all [CreateAuthorizationRequest]

theorem callback_store_cases (env : Env) (c : Cache) (sId tokenBytes : String) :
    (callback env c sId tokenBytes).2 = c
      ∨ ∃ req m, c.Get sId = some (.request req)
          ∧ (callback env c sId tokenBytes).2 = c.Set sId (.object m) := by
  unfold callback
  split
  · exact Or.inl rfl
  · rename_i authRequest hget
    split
    · exact Or.inl rfl
    · exact Or.inl rfl
    · split
      · rename_i req
        split
        · exact Or.inl rfl
        · exact Or.inr ⟨req, _, hget, rfl⟩
      · exact Or.inl rfl
      · exact Or.inl rfl

theorem reachable_entries (env : Env) (c : Cache) (h : Reachable env c) :
    ∀ k e, c.Get k = some e → k ≠ "" ∧ (e.isRequest || e.isObject) = true := by
  induction h with
  | start => intro k e hk; simp [Cache.Get, Cache.empty] at hk
  | serve c op _ ih =>
    intro k e hk
    cases op with
    | getAuthVerificationRequest rnd id threadId =>
      obtain ⟨request, _, hset, _⟩ := getAuthVerificationRequest_spec env c rnd id threadId
      simp only [step, hset] at hk
      by_cases hkey : k = Itoa (Intn rnd 1000000)
      · subst hkey
        rw [Cache.get_set_self] at hk
        cases hk
        exact ⟨Itoa_ne_empty _, rfl⟩
      · rw [Cache.get_set_of_ne _ _ _ _ hkey] at hk
        exact ih k e hk
    | callback sId tokenBytes =>
      rcases callback_store_cases env c sId tokenBytes with hsame | ⟨req, m, hget, hset⟩
      · simp only [step, hsame] at hk
        exact ih k e hk
      · simp only [step, hset] at hk
        by_cases hkey : k = sId
        · subst hkey
          rw [Cache.get_set_self] at hk
          cases hk
          exact ⟨(ih k _ hget).1, rfl⟩
        · rw [Cache.get_set_of_ne _ _ _ _ hkey] at hk
          exact ih k e hk
    | getRequestStatus id => exact ih k e hk

/-! ## Callback and status -/

/-- Claim C1: for every session id whose tracker entry is a pending authorization
request and every proof token the verifier accepts with subject identity
`arm.From`, `callback` succeeds with the bytes of the JSON object whose single
member `id` holds that identity (the handler sends them with HTTP 200), it
overwrites the entry with the resolved identity, and a `getRequestStatus` on the
same id right after returns exactly those bytes, which the status handler
sends with HTTP 200. -/
theorem callback_accepted_resolves_session (env : Env) (c : Cache) (sId tokenBytes : String)
    (req : AuthorizationRequestMessage) (verifier : Verifier)
    (arm : AuthorizationResponseMessage)
    (hpending : c.Get sId = some (.request req))
    (hverifier : env.NewVerifier = .ok (some verifier))
    (haccept : verifier.FullVerify tokenBytes req = .ok arm) :
    callback env c sId tokenBytes
        = (.returned
            (.ok ("\x7b" ++ (env.jsonQuote "id" ++ ":" ++ env.jsonQuote arm.From) ++ "\x7d")),
          c.Set sId (.object [("id", arm.From)]))
      ∧ (Callback env c sId (.ok tokenBytes)).1
        = .returned (EncodeByteResponse [] StatusOK
            (some ("\x7b" ++ (env.jsonQuote "id" ++ ":" ++ env.jsonQuote arm.From) ++ "\x7d")))
      ∧ (callback env c sId tokenBytes).2.Get sId = some (.object [("id", arm.From)])
      ∧ getRequestStatus env (callback env c sId tokenBytes).2 sId
        = .ok (some ("\x7b" ++ (env.jsonQuote "id" ++ ":" ++ env.jsonQuote arm.From) ++ "\x7d"))
      ∧ (Reachable env c →
          GetRequestStatus env (callback env c sId tokenBytes).2 sId
            = EncodeByteResponse [] StatusOK
                (some ("\x7b" ++ (env.jsonQuote "id" ++ ":" ++ env.jsonQuote arm.From)
                  ++ "\x7d"))) := by
  have hcb : callback env c sId tokenBytes
      = (.returned
          (.ok ("\x7b" ++ (env.jsonQuote "id" ++ ":" ++ env.jsonQuote arm.From) ++ "\x7d")),
        c.Set sId (.object [("id", arm.From)])) := by
    simp only [callback, hpending, hverifier, haccept, jsonMarshalMap]
    rfl
  have hstatus : getRequestStatus env (c.Set sId (.object [("id", arm.From)])) sId
      = .ok (some ("\x7b" ++ (env.jsonQuote "id" ++ ":" ++ env.jsonQuote arm.From) ++ "\x7d")) := by
    simp only [getRequestStatus, Cache.get_set_self, jsonMarshalMap]
    rfl
  refine ⟨hcb, ?_, ?_, ?_, ?_⟩
  · simp only [Callback, hcb]
  · rw [hcb]
    exact Cache.get_set_self _ _ _
  · rw [hcb]
    exact hstatus
  · intro hreach
    have hid : sId ≠ "" := (reachable_entries env c hreach sId _ hpending).1
    rw [hcb]
    simp only [GetRequestStatus, hid, if_false, hstatus]

theorem callback_accepted_resolves_session_witness :
    (∃ req arm, pendingCache.Get "42" = some (.request req)
        ∧ sampleVerifier.FullVerify "valid-token" req = .ok arm
        ∧ arm.From = "did:polygonid:polygon:mumbai:2qSubject")
      ∧ (Callback sampleEnv pendingCache "42" (.ok "valid-token")).1
        = .returned (EncodeByteResponse [] StatusOK
            (some "\x7b\"id\":\"did:polygonid:polygon:mumbai:2qSubject\"\x7d"))
      ∧ getRequestStatus sampleEnv (callback sampleEnv pendingCache "42" "valid-token").2 "42"
        = .ok (some "\x7b\"id\":\"did:polygonid:polygon:mumbai:2qSubject\"\x7d")
      ∧ GetRequestStatus sampleEnv (callback sampleEnv pendingCache "42" "valid-token").2 "42"
        = EncodeByteResponse [] StatusOK
            (some "\x7b\"id\":\"did:polygonid:polygon:mumbai:2qSubject\"\x7d") :=
  have h := callback_accepted_resolves_session sampleEnv pendingCache "42" "valid-token" _
    sampleVerifier _ rfl rfl rfl
  ⟨⟨_, _, rfl, rfl, rfl⟩, h.2.1, h.2.2.2.1,
    h.2.2.2.2 (Reachable.serve _ (.getAuthVerificationRequest 42 "id-1" "thread-1") Reachable.start)⟩

/-- Claim C2, as the code has it: for every session that has been issued and not
yet resolved (its tracker entry is the pending authorization request),
`getRequestStatus` returns no payload and no error, and the status handler
answers HTTP 404, handing the error `can't get request status with id: <id>` to
`EncodeResponse`, which is the very response it gives for an id that has no
live session. -/
theorem pending_status_answers_not_found (env : Env) (c : Cache) (id : String)
    (req : AuthorizationRequestMessage)
    (hreach : Reachable env c)
    (hpending : c.Get id = some (.request req)) :
    getRequestStatus env c id = .ok none
      ∧ GetRequestStatus env c id
        = EncodeResponse [] StatusNotFound (.err ("can't get request status with id: " ++ id))
      ∧ ∀ c' : Cache, c'.Get id = none → GetRequestStatus env c' id = GetRequestStatus env c id := by
  have hid : id ≠ "" := (reachable_entries env c hreach id _ hpending).1
  have hst : getRequestStatus env c id = .ok none := by
    simp only [getRequestStatus, hpending]
  refine ⟨hst, ?_, ?_⟩
  · simp only [GetRequestStatus, hid, if_false, hst]
  · intro c' hnone
    have hst' : getRequestStatus env c' id = .ok none := by
      simp only [getRequestStatus, hnone]
    simp only [GetRequestStatus, hst, hst']

theorem pending_status_answers_not_found_witness :
    (∃ req, pendingCache.Get "42" = some (.request req))
      ∧ (GetRequestStatus sampleEnv pendingCache "42").statusCode = 404
      ∧ GetRequestStatus sampleEnv Cache.empty "42" = GetRequestStatus sampleEnv pendingCache "42" :=
  have h := pending_status_answers_not_found sampleEnv pendingCache "42" _
    (Reachable.serve _ (.getAuthVerificationRequest 42 "id-1" "thread-1") Reachable.start) rfl
  ⟨⟨_, rfl⟩, by rw [h.2.1]; rfl, h.2.2 Cache.empty rfl⟩

/-- Claim C2 as stated fails: the session issued with id 42 is pending, yet the
status handler answers 404 for it, not 200 with an empty body, and its response
is the one it gives for the same id when no session exists. -/
theorem pending_status_is_not_ok :
    (pendingCache.Get "42").map Entry.isRequest = some true
      ∧ (GetRequestStatus sampleEnv pendingCache "42").statusCode = StatusNotFound
      ∧ GetRequestStatus sampleEnv pendingCache "42" ≠ EncodeByteResponse [] StatusOK none
      ∧ GetRequestStatus sampleEnv pendingCache "42"
        = GetRequestStatus sampleEnv Cache.empty "42" := by
  refine ⟨rfl, rfl, by decide, rfl⟩

/-- Claim C3: for every tracker state, session id and proof token, whenever
`callback` returns an error the tracker is exactly what it was before the call;
a pending session keeps its stored request, and the status reported for every
id is the same before and after the failed callback. -/
theorem callback_error_keeps_store (env : Env) (c : Cache) (sId tokenBytes err : String)
    (herr : (callback env c sId tokenBytes).1 = .returned (.error err)) :
    (callback env c sId tokenBytes).2 = c
      ∧ (∀ req, c.Get sId = some (.request req) →
          (callback env c sId tokenBytes).2.Get sId = some (.request req))
      ∧ (∀ id, getRequestStatus env (callback env c sId tokenBytes).2 id
          = getRequestStatus env c id)
      ∧ (∀ id, GetRequestStatus env (callback env c sId tokenBytes).2 id
          = GetRequestStatus env c id)
      ∧ Callback env c sId (.ok tokenBytes)
        = (.returned (EncodeResponse [] StatusInternalServerError
            (.err "can't handle callback request")), c) := by
  have hsame : (callback env c sId tokenBytes).2 = c := by
    revert herr
    unfold callback
    split
    · intro _; rfl
    · split
      · intro _; rfl
      · intro _; rfl
      · split
        · split
          · intro _; rfl
          · intro h
            simp [jsonMarshalMap] at h
        · intro _; rfl
        · intro _; rfl
  have hcb : callback env c sId tokenBytes = (.returned (.error err), c) :=
    Prod.ext herr hsame
  rw [hsame]
  refine ⟨rfl, fun _ h => h, fun _ => rfl, fun _ => rfl, ?_⟩
  simp only [Callback, hcb]

theorem callback_error_keeps_store_witness :
    (callback sampleEnv pendingCache "42" "garbled").1
        = .returned (.error "error Full Verify: token rejected")
      ∧ (callback sampleEnv pendingCache "42" "garbled").2 = pendingCache
      ∧ getRequestStatus sampleEnv (callback sampleEnv pendingCache "42" "garbled").2 "42"
        = getRequestStatus sampleEnv pendingCache "42" :=
  have h := callback_error_keeps_store sampleEnv pendingCache "42" "garbled"
    "error Full Verify: token rejected" rfl
  ⟨rfl, h.1, h.2.2.1 "42"⟩

/-- Claim C4: for every session id that was never issued (the tracker holds no
entry for it), `getRequestStatus` yields no payload and no error, and the status
handler, for a request that carries the id (a non-empty `id` parameter),
answers HTTP 404, handing an error value to `EncodeResponse`; in no case does it
write payload bytes. -/
theorem status_of_unknown_id_not_found (env : Env) (c : Cache) (id : String)
    (hnone : c.Get id = none) :
    getRequestStatus env c id = .ok none
      ∧ (id ≠ "" →
          GetRequestStatus env c id
            = EncodeResponse [] StatusNotFound
                (.err ("can't get request status with id: " ++ id)))
      ∧ ∀ b, (GetRequestStatus env c id).body ≠ .bytes b := by
  have hst : getRequestStatus env c id = .ok none := by
    simp only [getRequestStatus, hnone]
  refine ⟨hst, ?_, ?_⟩
  · intro hid
    simp only [GetRequestStatus, hid, if_false, hst]
  · intro b
    by_cases hid : id = ""
    · simp [GetRequestStatus, hid, EncodeResponse]
    · simp [GetRequestStatus, hid, hst, EncodeResponse]

theorem status_of_unknown_id_not_found_witness :
    pendingCache.Get "43" = none
      ∧ getRequestStatus sampleEnv pendingCache "43" = .ok none
      ∧ (GetRequestStatus sampleEnv pendingCache "43").statusCode = 404 :=
  have h := status_of_unknown_id_not_found sampleEnv pendingCache "43" rfl
  ⟨rfl, h.1, by rw [h.2.1 (by decide)]; rfl⟩

/-! ## Callback on a session that is already resolved -/

theorem callback_panics_on_object (env : Env) (c : Cache) (sId tokenBytes : String)
    (m : StringMap) (verifier : Verifier)
    (hresolved : c.Get sId = some (.object m))
    (hverifier : env.NewVerifier = .ok (some verifier)) :
    (callback env c sId tokenBytes).1.isPanic = true ∧ (callback env c sId tokenBytes).2 = c := by
  simp only [callback, hresolved, hverifier]
  exact ⟨rfl, trivial⟩

/-- Claim C5 fails on the code: the session with id 42 is resolved (the status poll
returns its identity), and `callback` on it, with a garbled token as with the
accepted one, ends in a panic at the type assertion on the stored entry; the
handler produces no response, where the claim has a verification error with
HTTP 500 or a success.  The tracker is untouched, so the poll afterwards still
returns the resolved identity. -/
theorem callback_on_resolved_session_panics :
    getRequestStatus sampleEnv resolvedCache "42"
        = .ok (some "\x7b\"id\":\"did:polygonid:polygon:mumbai:2qSubject\"\x7d")
      ∧ (callback sampleEnv resolvedCache "42" "garbled").1.isPanic = true
      ∧ (callback sampleEnv resolvedCache "42" "valid-token").1.isPanic = true
      ∧ (Callback sampleEnv resolvedCache "42" (.ok "garbled")).1.isPanic = true
      ∧ getRequestStatus sampleEnv (callback sampleEnv resolvedCache "42" "garbled").2 "42"
        = .ok (some "\x7b\"id\":\"did:polygonid:polygon:mumbai:2qSubject\"\x7d") :=
  ⟨rfl, rfl, rfl, rfl, rfl⟩

/-! ## Pending, then resolved -/

/-- Claim C6 as stated fails: after an issuance that generated 42, an accepted
callback and a status poll that reports the resolved identity, a second
issuance that generates 42 again makes the id hold a pending request again. -/
theorem reissued_id_is_pending_again :
    getRequestStatus sampleEnv
        (run sampleEnv Cache.empty
          [.getAuthVerificationRequest 42 "id-1" "thread-1", .callback "42" "valid-token"]) "42"
        = .ok (some "\x7b\"id\":\"did:polygonid:polygon:mumbai:2qSubject\"\x7d")
      ∧ ((run sampleEnv Cache.empty
          [.getAuthVerificationRequest 42 "id-1" "thread-1", .callback "42" "valid-token",
            .getRequestStatus "42",
            .getAuthVerificationRequest 42 "id-2" "thread-2"]).Get "42").map Entry.isRequest
        = some true
      ∧ getRequestStatus sampleEnv
        (run sampleEnv Cache.empty
          [.getAuthVerificationRequest 42 "id-1" "thread-1", .callback "42" "valid-token",
            .getRequestStatus "42",
            .getAuthVerificationRequest 42 "id-2" "thread-2"]) "42"
        = .ok none :=
  ⟨rfl, rfl, rfl⟩

theorem step_keeps_resolved (env : Env) (c : Cache) (id : String) (m : StringMap) (op : Op)
    (hres : c.Get id = some (.object m))
    (hfresh : ∀ rnd u t, op = .getAuthVerificationRequest rnd u t →
      Itoa (Intn rnd 1000000) ≠ id) :
    (step env c op).Get id = some (.object m) := by
  cases op with
  | getAuthVerificationRequest rnd u t =>
    obtain ⟨request, _, hset, _⟩ := getAuthVerificationRequest_spec env c rnd u t
    simp only [step, hset]
    rw [Cache.get_set_of_ne _ _ _ _ (fun h => hfresh rnd u t rfl h.symm)]
    exact hres
  | callback sId tokenBytes =>
    rcases callback_store_cases env c sId tokenBytes with hsame | ⟨req, m', hget, hset⟩
    · simp only [step, hsame]
      exact hres
    · simp only [step, hset]
      have hne : id ≠ sId := by
        intro h
        subst h
        rw [hres] at hget
        cases hget
      rw [Cache.get_set_of_ne _ _ _ _ hne]
      exact hres
  | getRequestStatus _ => exact hres

/-- Claim C6, as the code has it: along every sequence of `getAuthVerificationRequest`,
`callback` and `getRequestStatus` operations inside the expiry window in which no
issuance generates that session id again, an id whose entry is a resolved
identity keeps that same resolved identity: the entry never holds a pending
request again, and the status poll keeps returning the same bytes. -/
theorem resolved_session_stays_resolved (env : Env) (c : Cache) (id : String) (m : StringMap)
    (ops : List Op)
    (hres : c.Get id = some (.object m))
    (hfresh : ∀ rnd u t, Op.getAuthVerificationRequest rnd u t ∈ ops →
      Itoa (Intn rnd 1000000) ≠ id) :
    (run env c ops).Get id = some (.object m)
      ∧ getRequestStatus env (run env c ops) id = getRequestStatus env c id := by
  have hget : (run env c ops).Get id = some (.object m) := by
    induction ops generalizing c with
    | nil => exact hres
    | cons op ops ih =>
      simp only [run, List.foldl_cons]
      apply ih
      · apply step_keeps_resolved env c id m op hres
        intro rnd u t hop
        exact hfresh rnd u t (by simp [hop])
      · intro rnd u t hmem
        exact hfresh rnd u t (List.mem_cons_of_mem _ hmem)
  refine ⟨hget, ?_⟩
  simp only [getRequestStatus, hget, hres]

theorem resolved_session_stays_resolved_witness :
    resolvedCache.Get "42"
        = some (.object [("id", "did:polygonid:polygon:mumbai:2qSubject")])
      ∧ (run sampleEnv resolvedCache
          [.callback "42" "garbled", .getRequestStatus "42",
            .getAuthVerificationRequest 7 "id-2" "thread-2",
            .callback "42" "valid-token"]).Get "42"
        = some (.object [("id", "did:polygonid:polygon:mumbai:2qSubject")]) :=
  ⟨rfl,
    (resolved_session_stays_resolved sampleEnv resolvedCache "42" _
      [.callback "42" "garbled", .getRequestStatus "42",
        .getAuthVerificationRequest 7 "id-2" "thread-2", .callback "42" "valid-token"]
      rfl
      (by
        intro rnd u t hmem
        simp only [List.mem_cons, List.mem_singleton, Op.getAuthVerificationRequest.injEq,
          reduceCtorEq, false_or, or_false, List.not_mem_nil] at hmem
        obtain ⟨rfl, _, _⟩ := hmem
        decide)).1⟩

/-! ## Issuance -/

/-- Claim C7 as stated fails: the tracker holds the live, resolved session 42; an
issuance that generates 42 returns the id 42, which names that live session,
and overwrites its entry with a pending request.  Two issuances whose random
values are 42 and 1000042 return the same id. -/
theorem issuance_returns_live_id :
    (resolvedCache.Get "42").map Entry.isObject = some true
      ∧ (getAuthVerificationRequest sampleEnv resolvedCache 42 "id-2" "thread-2").1.toOption.map
          Prod.snd = some "42"
      ∧ ((getAuthVerificationRequest sampleEnv resolvedCache 42 "id-2" "thread-2").2.Get
          "42").map Entry.isRequest = some true
      ∧ (getAuthVerificationRequest sampleEnv Cache.empty 42 "id-1" "thread-1").1.toOption.map
          Prod.snd
        = (getAuthVerificationRequest sampleEnv pendingCache 1000042 "id-2"
            "thread-2").1.toOption.map Prod.snd :=
  ⟨rfl, rfl, rfl, rfl⟩

/-- Claim C7, as the code has it: the session id `getAuthVerificationRequest` returns is
the decimal rendering of the generated integer, so two issuances produce two
distinct ids exactly when their generated integers differ; for every tracker
state the issuance writes the entry of that id only, so the entry of every
session with another id is what it was, and when the id names no live session
every live entry is kept. -/
theorem issuance_writes_only_its_id (env : Env) (c : Cache) (rnd : Nat) (id threadId : String) :
    (∀ payload sessionId,
        (getAuthVerificationRequest env c rnd id threadId).1 = .ok (payload, sessionId) →
          sessionId = Itoa (Intn rnd 1000000))
      ∧ (∀ rnd', Itoa (Intn rnd 1000000) ≠ Itoa (Intn rnd' 1000000)
          ↔ Intn rnd 1000000 ≠ Intn rnd' 1000000)
      ∧ (∀ k, k ≠ Itoa (Intn rnd 1000000) →
          (getAuthVerificationRequest env c rnd id threadId).2.Get k = c.Get k)
      ∧ (c.Get (Itoa (Intn rnd 1000000)) = none →
          ∀ k e, c.Get k = some e →
            (getAuthVerificationRequest env c rnd id threadId).2.Get k = some e) := by
  obtain ⟨request, _, hset, hres⟩ := getAuthVerificationRequest_spec env c rnd id threadId
  have hother : ∀ k, k ≠ Itoa (Intn rnd 1000000) →
      (getAuthVerificationRequest env c rnd id threadId).2.Get k = c.Get k := by
    intro k hk
    rw [hset]
    exact Cache.get_set_of_ne _ _ _ _ hk
  refine ⟨?_, ?_, hother, ?_⟩
  · intro payload sessionId hok
    rw [hres] at hok
    split at hok
    · cases hok
    · cases hok
      rfl
  · intro rnd'
    constructor
    · intro h heq
      exact h (by rw [heq])
    · intro h heq
      exact h (Itoa_injective _ _ heq)
  · intro hnone k e hk
    have hne : k ≠ Itoa (Intn rnd 1000000) := by
      intro h
      rw [h, hnone] at hk
      cases hk
    rw [hother k hne]
    exact hk

/-- Claim C8: for every successful `getAuthVerificationRequest` returning
`(payload, sessionId)`, the session id is the decimal rendering of the generated
integer, the tracker maps it to a pending request whose JSON serialization is
exactly `payload`, the callback URI of that request is the base URL followed
by `/api/v1/callback?sessionId=` and that same id, and the handler answers 200
with `payload` as body and that id in the `x-id` header. -/
theorem issued_session_matches_payload (env : Env) (c : Cache) (rnd : Nat)
    (id threadId payload sessionId : String)
    (hok : (getAuthVerificationRequest env c rnd id threadId).1 = .ok (payload, sessionId)) :
    sessionId = Itoa (Intn rnd 1000000)
      ∧ (∃ request : AuthorizationRequestMessage,
          (getAuthVerificationRequest env c rnd id threadId).2.Get sessionId
              = some (.request request)
            ∧ jsonMarshalRequest env request = .ok payload
            ∧ request.Body.CallbackURL = URL ++ "/api/v1/callback?sessionId=" ++ sessionId)
      ∧ (GetAuthVerificationRequest env c rnd id threadId).1
        = EncodeByteResponse
            [("Access-Control-Expose-Headers", "x-id"), ("x-id", sessionId),
              ("Access-Control-Allow-Origin", "*")]
            StatusOK (some payload)
      ∧ (GetAuthVerificationRequest env c rnd id threadId).1.header.lookup "x-id"
        = some sessionId := by
  obtain ⟨request, hurl, hset, hres⟩ := getAuthVerificationRequest_spec env c rnd id threadId
  have hmarshal : jsonMarshalRequest env request = .ok payload
      ∧ sessionId = Itoa (Intn rnd 1000000) := by
    rw [hres] at hok
    split at hok
    · cases hok
    · rename_i msgBytes hm
      cases hok
      exact ⟨hm, rfl⟩
  obtain ⟨hm, hid⟩ := hmarshal
  have hresp : (GetAuthVerificationRequest env c rnd id threadId).1
      = EncodeByteResponse
          [("Access-Control-Expose-Headers", "x-id"), ("x-id", sessionId),
            ("Access-Control-Allow-Origin", "*")]
          StatusOK (some payload) := by
    unfold GetAuthVerificationRequest
    rcases hp : getAuthVerificationRequest env c rnd id threadId with ⟨r, c'⟩
    rw [hp] at hok
    dsimp only at hok
    subst hok
    rfl
  refine ⟨hid, ⟨request, ?_, hm, ?_⟩, hresp, ?_⟩
  · rw [hset, hid]
    exact Cache.get_set_self _ _ _
  · rw [hurl, hid]
  · rw [hresp]
    simp [EncodeByteResponse, List.lookup]

theorem issued_session_matches_payload_witness :
    (getAuthVerificationRequest sampleEnv Cache.empty 1000042 "id-1" "thread-1").1
        = .ok ("request id-1 https://1b05-112-134-208-202.ngrok-free.app/api/v1/callback?sessionId=42",
            "42")
      ∧ "42" = Itoa (Intn 1000042 1000000)
      ∧ (GetAuthVerificationRequest sampleEnv Cache.empty 1000042 "id-1"
          "thread-1").1.header.lookup "x-id" = some "42" :=
  have h := issued_session_matches_payload sampleEnv Cache.empty 1000042 "id-1" "thread-1"
    "request id-1 https://1b05-112-134-208-202.ngrok-free.app/api/v1/callback?sessionId=42"
    "42" rfl
  ⟨rfl, h.1, h.2.2.2⟩

/-- The default contract address yields the genesis it stands for. -/
theorem genesis_of_default_address :
    isContractAddress "0x134B1BE34911E39A8397ec6289782989729807a4" = true
      ∧ (configWithAddress "0x134B1BE34911E39A8397ec6289782989729807a4").genesis.value?
        = addressGenesis "0x134B1BE34911E39A8397ec6289782989729807a4" := by
  decide

/-- Claim C10 fails on the code: `strings.Trim` removes every leading and trailing
`0` digit of the address together with the `0x`.  For the well-formed address
ending in `a0` the hex string has odd length and `genFromHex` panics; for the
well-formed address starting with `0x00` the call returns, but the 20 address
bytes are cut to 19, shifted one place to the front and followed by a zero
byte, which is not 7 zero bytes followed by the 20 bytes of the address. -/
theorem genesis_trim_strips_zero_digits :
    isContractAddress "0x134B1BE34911E39A8397ec6289782989729807a0" = true
      ∧ (configWithAddress "0x134B1BE34911E39A8397ec6289782989729807a0").genesis.isPanic = true
      ∧ isContractAddress "0x004B1BE34911E39A8397ec6289782989729807a4" = true
      ∧ (configWithAddress "0x004B1BE34911E39A8397ec6289782989729807a4").genesis.value?
        = some [0, 0, 0, 0, 0, 0, 0, 75, 27, 227, 73, 17, 227, 154, 131, 151, 236, 98, 137, 120,
            41, 137, 114, 152, 7, 164, 0]
      ∧ addressGenesis "0x004B1BE34911E39A8397ec6289782989729807a4"
        = some [0, 0, 0, 0, 0, 0, 0, 0, 75, 27, 227, 73, 17, 227, 154, 131, 151, 236, 98, 137,
            120, 41, 137, 114, 152, 7, 164]
      ∧ (configWithAddress "0x004B1BE34911E39A8397ec6289782989729807a4").genesis.value?
        ≠ addressGenesis "0x004B1BE34911E39A8397ec6289782989729807a4" := by
  decide

end VServer
